import Mathlib

/-!
Shallow embedding of the devapi request compatibility layer and request gate:
format detection (src/unnamed/part_002), response transformation
(src/middleware/responseTransformer.ts), authentication (src/middleware/auth.ts),
token revocation (src/utils/jwt.ts) and the tiered rate limiters
(src/unnamed/part_001).

JSON/JavaScript values are modelled by `JVal`; member access `x.f` is modelled
by `jget`, which returns `JVal.undefined` when the field is missing or the value is
not an object (faithful to JS for all values except `null`/`undefined`
receivers, which the claims do not exercise).  JS truthiness is modelled by
`truthy`.
-/

namespace DevApi

/-- JSON/JS values as produced and consumed by the middleware. -/
inductive JVal where
  | null
  | undefined
  | bool (b : Bool)
  | num (n : Int)
  | str (s : String)
  | arr (xs : List JVal)
  | obj (fields : List (String × JVal))

/-- Whether a value is JS `undefined` (for `!== undefined` tests). -/
def isUndefined : JVal → Bool
  | .undefined => true
  | _ => false

/-- JS truthiness of a value (`if (x)`). -/
def truthy : JVal → Bool
  | .null => false
  | .undefined => false
  | .bool b => b
  | .num n => n != 0
  | .str s => s != ""
  | .arr _ => true
  | .obj _ => true

/-- First-match field lookup in an object's field list. -/
def lookupField : List (String × JVal) → String → JVal
  | [], _ => .undefined
  | (k, v) :: rest, key => if k = key then v else lookupField rest key

/-- JS member access `x.key`: `JVal.undefined` for a missing field or non-object value. -/
def jget : JVal → String → JVal
  | .obj fs, key => lookupField fs key
  | _, _ => .undefined

/-- Top-level key list of an object (empty for non-objects). -/
def jkeys : JVal → List String
  | .obj fs => fs.map Prod.fst
  | _ => []

/-- `sub` matches at the head of `hay` (character list). -/
def matchesAt : List Char → List Char → Bool
  | [], _ => true
  | _ :: _, [] => false
  | a :: as, b :: bs => a == b && matchesAt as bs

/-- `sub` occurs somewhere in `hay` (character list). -/
def hasSubList (sub : List Char) : List Char → Bool
  | [] => matchesAt sub []
  | c :: cs => matchesAt sub (c :: cs) || hasSubList sub cs

/-- JS `hay.includes(sub)`: substring containment. -/
def containsSub (hay sub : String) : Bool :=
  hasSubList sub.toList hay.toList

/-- ASCII lowercasing of one character (the fragment of JS `toLowerCase()`
exercised by the detector's ASCII-only substring tests). -/
def lowerChar (c : Char) : Char :=
  if 'A' ≤ c && c ≤ 'Z' then Char.ofNat (c.toNat + 32) else c

/-- JS `s.toLowerCase()` on ASCII strings. -/
def lowerStr (s : String) : String :=
  String.mk (s.toList.map lowerChar)

/-- JS `s.startsWith(p)`: prefix match. -/
def startsWithStr (s p : String) : Bool :=
  matchesAt p.toList s.toList

/-! ## Format detection (src/unnamed/part_002, `formatDetector`) -/

/-- The `type` discriminant of a `ClientFormat`. -/
inductive FormatType where
  | legacy
  | v1
  | v2
  | current
deriving DecidableEq, Repr

/-- `ClientFormat` from src/unnamed/part_002. -/
structure ClientFormat where
  version : String
  type : FormatType
  wrapInData : Bool
  includeSuccess : Bool
  fieldMappings : Option (List (String × String)) := none
deriving DecidableEq, Repr

/-- `getLegacyFormat` from src/unnamed/part_002. -/
def getLegacyFormat : ClientFormat :=
  { version := "legacy", type := .legacy, wrapInData := true,
    includeSuccess := true, fieldMappings := some [] }

/-- The default "current" format built at the top of `formatDetector`. -/
def currentFormat : ClientFormat :=
  { version := "current", type := .current, wrapInData := false,
    includeSuccess := false }

/-- The v2 format returned by `getFormatByVersion` for `"v2"`/`"2"`. -/
def v2Format : ClientFormat :=
  { version := "v2", type := .v2, wrapInData := true, includeSuccess := true }

/-- `getFormatByVersion` from src/unnamed/part_002. -/
def getFormatByVersion (version : String) : ClientFormat :=
  match version with
  | "v1" | "1" => getLegacyFormat
  | "v2" | "2" => v2Format
  | _ => currentFormat

/-- The request headers inspected by the detector.  `none` models an absent
header. -/
structure Headers where
  xApiVersion : Option String := none
  appVersion : Option String := none
  userAgent : Option String := none
  authorization : Option String := none
deriving DecidableEq, Repr

/-- JS truthiness of a possibly-absent string header. -/
def strTruthy : Option String → Bool
  | none => false
  | some s => s != ""

/-- User agent contains one of the legacy client substrings
(`48hauling`, `devapi`, `devdashboard`), after lowercasing. -/
def uaIsLegacy (ua : String) : Bool :=
  let l := lowerStr ua
  containsSub l "48hauling" || containsSub l "devapi" || containsSub l "devdashboard"

/-- `formatDetector` from src/unnamed/part_002: the cascading if/else chain
computing the client format from the headers.  The user-agent branch is taken
whenever a user agent is present; inside it, a non-legacy user agent leaves the
default current format in place. -/
def formatDetector (h : Headers) : ClientFormat :=
  if strTruthy h.xApiVersion then
    getFormatByVersion (h.xApiVersion.getD "")
  else if strTruthy h.appVersion then
    getLegacyFormat
  else if strTruthy h.userAgent then
    let ua := lowerStr (h.userAgent.getD "")
    if containsSub ua "48hauling" || containsSub ua "devapi" then
      getLegacyFormat
    else if containsSub ua "devdashboard" then
      getLegacyFormat
    else
      currentFormat
  else if strTruthy h.authorization then
    getLegacyFormat
  else
    currentFormat

/-- A request as seen by the format middleware: headers plus the
`clientFormat` slot the detector fills in. -/
structure FormatRequest where
  headers : Headers
  path : String := ""
  clientFormat : Option ClientFormat := none
deriving DecidableEq, Repr

/-- Running the detector middleware on a request: computes the format from the
headers and attaches it (`req.clientFormat = format`). -/
def runDetector (req : FormatRequest) : FormatRequest :=
  { req with clientFormat := some (formatDetector req.headers) }

/-! ## Response transformation (src/middleware/responseTransformer.ts) -/

/-- `ensureFormat` from responseTransformer.ts: rebuild error bodies as
`{ success: false, error, message }` when `error` is truthy and `success` is
not; otherwise return the body unchanged. -/
def ensureFormat (data : JVal) (_format : ClientFormat) : JVal :=
  if truthy (jget data "error") && !truthy (jget data "success") then
    .obj [("success", .bool false), ("error", jget data "error"),
          ("message", jget data "message")]
  else
    data

/-- The generic tail of `transformToLegacy`: wrap when `wrapInData`, else pass
through. -/
def legacyGeneric (data : JVal) (format : ClientFormat) : JVal :=
  if format.wrapInData then
    .obj [("success", .bool true), ("data", data)]
  else
    data

/-- The `/auth/me` special case of `transformToLegacy`, falling through to the
generic rule. -/
def legacyAuthMe (data : JVal) (format : ClientFormat) (path : String) : JVal :=
  if containsSub path "/auth/me" && truthy (jget data "user") then
    data
  else
    legacyGeneric data format

/-- `transformToLegacy` from responseTransformer.ts.  The login/register block
falls through to the `/auth/me` check and then to the generic rule when its
inner conditions fail, mirroring the early-return structure of the source. -/
def transformToLegacy (data : JVal) (format : ClientFormat) (path : String) : JVal :=
  if !isUndefined (jget data "success") && !isUndefined (jget data "data") then
    data
  else if containsSub path "/auth/login" || containsSub path "/auth/register" then
    if truthy (jget data "user") && truthy (jget data "token") then
      .obj [("success", .bool true),
            ("data", .obj [("user", jget data "user"), ("token", jget data "token")])]
    else if truthy (jget data "data") && truthy (jget (jget data "data") "user")
        && truthy (jget (jget data "data") "token") then
      .obj [("success", .bool true), ("data", jget data "data")]
    else
      legacyAuthMe data format path
  else
    legacyAuthMe data format path

/-- `transformToV2` from responseTransformer.ts: wrap when `wrapInData` is set
and `data.data` is not truthy. -/
def transformToV2 (data : JVal) (format : ClientFormat) : JVal :=
  if format.wrapInData && !truthy (jget data "data") then
    .obj [("success", .bool true), ("data", data)]
  else
    data

/-- `transformResponse` from responseTransformer.ts: error bodies (truthy
`error` field) are normalized; otherwise dispatch on the format type. -/
def transformResponse (data : JVal) (format : ClientFormat) (path : String) : JVal :=
  if truthy (jget data "error") then
    ensureFormat data format
  else
    match format.type with
    | .legacy | .v1 => transformToLegacy data format path
    | .v2 => transformToV2 data format
    | .current => data

/-- The `res.json` override installed by `responseTransformer`: when no client
format was attached to the request, the body is passed through unchanged. -/
def applyTransformer (data : JVal) (clientFormat : Option ClientFormat)
    (path : String) : JVal :=
  match clientFormat with
  | none => data
  | some format => transformResponse data format path

/-! ## Authentication gate (src/middleware/auth.ts) -/

/-- `TokenPayload` from src/utils/jwt.ts. -/
structure TokenPayload where
  userId : String
  email : String
  role : String
deriving DecidableEq, Repr

/-- Outcome of the authentication middleware: either a rejection response
(status code and JSON body, the handler is not reached) or success with the
decoded identity attached to the request (`req.user = decoded`). -/
inductive AuthOutcome where
  | rejected (status : Nat) (body : JVal)
  | authenticated (user : TokenPayload)

/-- The JSON error body `{ error: <msg> }` sent by the gate's rejections. -/
def errBody (msg : String) : JVal :=
  .obj [("error", .str msg)]

/-- `authMiddleware` from src/middleware/auth.ts, parameterized by the
revocation store (`blacklisted`, the `isTokenBlacklisted` lookup) and the token
codec (`verify`, the `verifyToken` function): missing/malformed header fails
first, then the revocation check, then cryptographic verification. -/
def authMiddleware (authHeader : Option String)
    (blacklisted : String → Bool)
    (verify : String → Option TokenPayload) : AuthOutcome :=
  match authHeader with
  | none => .rejected 401 (errBody "No token provided")
  | some header =>
    if !startsWithStr header "Bearer " then
      .rejected 401 (errBody "No token provided")
    else
      let token := header.drop 7
      if blacklisted token then
        .rejected 401 (errBody "Token has been revoked")
      else
        match verify token with
        | none => .rejected 401 (errBody "Invalid or expired token")
        | some decoded => .authenticated decoded

/-- `adminMiddleware` from src/middleware/auth.ts: 401 when no identity is
attached, 403 when the role is not ADMIN, else pass. -/
def adminMiddleware (user : Option TokenPayload) : Option (Nat × JVal) :=
  match user with
  | none => some (401, errBody "Not authenticated")
  | some u =>
    if u.role ≠ "ADMIN" then some (403, errBody "Admin access required")
    else none

/-! ## Token revocation (src/utils/jwt.ts, `blacklistToken`) -/

/-- The revocation store: entries `(key, ttl)` written by
`redisClient.setEx key ttl value`; the value is an existence marker only. -/
def RevStore := List (String × Int)

/-- `blacklistToken` from src/utils/jwt.ts.  `decodedExp` is the `exp` claim of
`jwt.decode(token)` (`none` when the token does not decode or carries no `exp`,
both falsy in the source's `decoded && decoded.exp` guard; an `exp` of `0` is
also falsy there, modelled by the `exp ≠ 0` test).  `now` is
`Math.floor(Date.now() / 1000)`. -/
def blacklistToken (decodedExp : Option Nat) (now : Nat) (token : String)
    (store : RevStore) : RevStore :=
  match decodedExp with
  | none => store
  | some exp =>
    if exp ≠ 0 then
      let ttl : Int := (exp : Int) - (now : Int)
      if ttl > 0 then ("blacklist:" ++ token, ttl) :: store else store
    else
      store

/-! ## Tiered rate limiting (src/unnamed/part_001) -/

/-- Configuration of one `express-rate-limit` instance: window length,
maximum count per window, and the error message its 429 handler sends. -/
structure LimiterConfig where
  windowMs : Nat
  max : Nat
  errorMessage : String
deriving DecidableEq, Repr

/-- `authLimiter` from src/unnamed/part_001. -/
def authLimiter : LimiterConfig :=
  { windowMs := 15 * 60 * 1000, max := 100,
    errorMessage := "Too many login attempts, please try again later." }

/-- `realtimeLimiter` from src/unnamed/part_001. -/
def realtimeLimiter : LimiterConfig :=
  { windowMs := 15 * 60 * 1000, max := 15000,
    errorMessage := "Rate limit exceeded. Please reduce polling frequency." }

/-- `generalLimiter` from src/unnamed/part_001. -/
def generalLimiter : LimiterConfig :=
  { windowMs := 15 * 60 * 1000, max := 3000,
    errorMessage := "Too many requests, please try again later." }

/-- Per-IP request counts inside the current fixed window of one limiter. -/
def WindowCounts := List (String × Nat)

/-- Requests already counted for `ip` in the current window (0 when none). -/
def getCount (counts : WindowCounts) (ip : String) : Nat :=
  match counts with
  | [] => 0
  | (k, n) :: rest => if k = ip then n else getCount rest ip

/-- The 429 rejection body `{ success: false, error: <msg> }` sent by each
limiter's handler. -/
def rateLimitBody (msg : String) : JVal :=
  .obj [("success", .bool false), ("error", .str msg)]

/-- Modelled from the spec: the counting semantics of the `express-rate-limit`
library (its code is not part of this repository; only the three configurations
in src/unnamed/part_001 are).  Per the spec's rate limiting contract, each
class keeps a per-IP counter over a 15-minute window; a request is forwarded to
the handler while the window's count stays within the class max, and once the
max is exhausted the request is answered with 429 and the class's rejection
body without reaching the handler.  Returns `none` (forwarded) or
`some (429, body)` (rejected), plus the updated counts. -/
def rateLimitStep (cfg : LimiterConfig) (counts : WindowCounts) (ip : String) :
    Option (Nat × JVal) × WindowCounts :=
  let used := getCount counts ip
  let counted := used + 1
  let counts' := (ip, counted) :: counts
  if counted ≤ cfg.max then
    (none, counts')
  else
    (some (429, rateLimitBody cfg.errorMessage), counts')

/-! ## Helper lemmas -/

/-- A truthy value is not `undefined`. -/
theorem isUndefined_eq_false_of_truthy {x : JVal} (h : truthy x = true) :
    isUndefined x = false := by
  cases x <;> simp_all [truthy, isUndefined]

/-- An absent header is not truthy. -/
theorem strTruthy_none : strTruthy none = false := rfl

/-- A present header is truthy iff its value is non-empty. -/
theorem strTruthy_some (s : String) : strTruthy (some s) = (s != "") := rfl

/-- Truthiness of a boolean value. -/
theorem truthy_bool (b : Bool) : truthy (.bool b) = b := rfl

/-- Objects are truthy. -/
theorem truthy_obj (fs : List (String × JVal)) : truthy (.obj fs) = true := rfl

/-- `undefined` is falsy. -/
theorem truthy_undefined : truthy .undefined = false := rfl

/-- Booleans are not `undefined`. -/
theorem isUndefined_bool (b : Bool) : isUndefined (.bool b) = false := rfl

/-- Objects are not `undefined`. -/
theorem isUndefined_obj (fs : List (String × JVal)) :
    isUndefined (.obj fs) = false := rfl

/-- The normalized error shape is a fixed point of the transformer: its
`error` is the (truthy) original error and its `success` is `false`, so the
error branch rebuilds it unchanged. -/
theorem errShapeFixed (e m : JVal) (format : ClientFormat) (path : String)
    (he : truthy e = true) :
    transformResponse
        (.obj [("success", .bool false), ("error", e), ("message", m)])
        format path
      = .obj [("success", .bool false), ("error", e), ("message", m)] := by
  simp [transformResponse, ensureFormat, jget, lookupField, he, truthy_bool]

/-- Under a legacy/v1 format, a wrapped body `{ success: true, data: x }` with
defined `x` passes the already-shaped check and is returned unchanged. -/
theorem legacyWrapFixed (x : JVal) (format : ClientFormat) (path : String)
    (hx : isUndefined x = false) (hty : format.type = .legacy ∨ format.type = .v1) :
    transformResponse (.obj [("success", .bool true), ("data", x)]) format path
      = .obj [("success", .bool true), ("data", x)] := by
  rcases hty with h | h <;>
    simp [transformResponse, transformToLegacy, jget, lookupField,
      truthy_undefined, isUndefined_bool, h, hx]

/-- Under a v2 format, a wrapped body `{ success: true, data: x }` with truthy
`x` is returned unchanged. -/
theorem v2WrapFixed (x : JVal) (format : ClientFormat) (path : String)
    (hx : truthy x = true) (hty : format.type = .v2) :
    transformResponse (.obj [("success", .bool true), ("data", x)]) format path
      = .obj [("success", .bool true), ("data", x)] := by
  simp [transformResponse, transformToV2, jget, lookupField, truthy_undefined,
    hty, hx]

/-- The `legacyAuthMe` tail of the legacy transform is stabilized by a second
application: its output is either the body itself or the wrap of an object
body. -/
theorem legacyAuthMeIdem (fields : List (String × JVal))
    (format : ClientFormat) (path : String)
    (hty : format.type = .legacy ∨ format.type = .v1)
    (hT : transformResponse (JVal.obj fields) format path
      = legacyAuthMe (JVal.obj fields) format path) :
    transformResponse (legacyAuthMe (JVal.obj fields) format path) format path
      = legacyAuthMe (JVal.obj fields) format path := by
  cases cMe : (containsSub path "/auth/me"
      && truthy (jget (JVal.obj fields) "user")) with
  | true =>
    have h1 : legacyAuthMe (JVal.obj fields) format path = JVal.obj fields := by
      simp [legacyAuthMe, cMe]
    rw [h1]
    exact hT.trans h1
  | false =>
    cases hw : format.wrapInData with
    | true =>
      have h1 : legacyAuthMe (JVal.obj fields) format path
          = JVal.obj [("success", .bool true), ("data", JVal.obj fields)] := by
        simp [legacyAuthMe, cMe, legacyGeneric, hw]
      rw [h1]
      exact legacyWrapFixed _ format path rfl hty
    | false =>
      have h1 : legacyAuthMe (JVal.obj fields) format path = JVal.obj fields := by
        simp [legacyAuthMe, cMe, legacyGeneric, hw]
      rw [h1]
      exact hT.trans h1

/-- Idempotence of the transformer on object bodies under legacy/v1 formats:
every branch of `transformToLegacy` yields a fixed point of the transform. -/
theorem legacyIdem (fields : List (String × JVal)) (format : ClientFormat)
    (path : String)
    (he : truthy (jget (JVal.obj fields) "error") = false)
    (hty : format.type = .legacy ∨ format.type = .v1) :
    transformResponse (transformResponse (JVal.obj fields) format path)
        format path
      = transformResponse (JVal.obj fields) format path := by
  have hTd : transformResponse (JVal.obj fields) format path
      = transformToLegacy (JVal.obj fields) format path := by
    rcases hty with h | h <;> simp [transformResponse, he, h]
  rw [hTd]
  cases c1 : (!isUndefined (jget (JVal.obj fields) "success")
      && !isUndefined (jget (JVal.obj fields) "data")) with
  | true =>
    have h1 : transformToLegacy (JVal.obj fields) format path
        = JVal.obj fields := by
      simp [transformToLegacy, c1]
    rw [h1]
    exact hTd.trans h1
  | false =>
    cases cL : (containsSub path "/auth/login"
        || containsSub path "/auth/register") with
    | true =>
      cases cUT : (truthy (jget (JVal.obj fields) "user")
          && truthy (jget (JVal.obj fields) "token")) with
      | true =>
        have h1 : transformToLegacy (JVal.obj fields) format path
            = JVal.obj [("success", .bool true),
                ("data", JVal.obj [("user", jget (JVal.obj fields) "user"),
                  ("token", jget (JVal.obj fields) "token")])] := by
          simp [transformToLegacy, c1, cL, cUT]
        rw [h1]
        exact legacyWrapFixed _ format path rfl hty
      | false =>
        cases cDD : (truthy (jget (JVal.obj fields) "data")
            && truthy (jget (jget (JVal.obj fields) "data") "user")
            && truthy (jget (jget (JVal.obj fields) "data") "token")) with
        | true =>
          have hdt : truthy (jget (JVal.obj fields) "data") = true := by
            have h := cDD
            rw [Bool.and_eq_true, Bool.and_eq_true] at h
            exact h.1.1
          have h1 : transformToLegacy (JVal.obj fields) format path
              = JVal.obj [("success", .bool true),
                  ("data", jget (JVal.obj fields) "data")] := by
            simp [transformToLegacy, c1, cL, cUT, cDD]
          rw [h1]
          exact legacyWrapFixed _ format path (isUndefined_eq_false_of_truthy hdt) hty
        | false =>
          have h1 : transformToLegacy (JVal.obj fields) format path
              = legacyAuthMe (JVal.obj fields) format path := by
            simp [transformToLegacy, c1, cL, cUT, cDD]
          rw [h1]
          exact legacyAuthMeIdem fields format path hty (hTd.trans h1)
    | false =>
      have h1 : transformToLegacy (JVal.obj fields) format path
          = legacyAuthMe (JVal.obj fields) format path := by
        simp [transformToLegacy, c1, cL]
      rw [h1]
      exact legacyAuthMeIdem fields format path hty (hTd.trans h1)

end DevApi

namespace DevApi

/-! ## Claims -/

/-- Claim C1, counterexample: a request with no version headers, a present
User-Agent (`Mozilla/5.0`) containing no legacy client substring, and an
Authorization header is classified as the current descriptor
(`wrapInData = false`, `includeSuccess = false`), not the legacy descriptor
(`wrapInData = true`, `includeSuccess = true`) the claim asserts. -/
theorem C1_counterexample :
    formatDetector { userAgent := some "Mozilla/5.0",
                     authorization := some "Bearer abc" } = currentFormat
    ∧ currentFormat.wrapInData = false ∧ currentFormat.includeSuccess = false :=
  ⟨rfl, rfl, rfl⟩

/-- Claim C1, amended: for every request with no explicit version header, no
application-version header, a present non-empty User-Agent containing none of
the legacy client substrings, and a present Authorization header, the detector
classifies the request as the current descriptor — the Authorization fallback
is only reached when no non-empty User-Agent is present. -/
theorem C1_amended (h : Headers) (ua a : String)
    (hv : h.xApiVersion = none) (hav : h.appVersion = none)
    (hua : h.userAgent = some ua) (hne : ua ≠ "")
    (hleg : uaIsLegacy ua = false)
    (ha : h.authorization = some a) :
    formatDetector h = currentFormat := by
  simp only [uaIsLegacy, Bool.or_eq_false_iff] at hleg
  simp [formatDetector, hv, hav, hua, strTruthy_none, strTruthy_some, hne,
    hleg.1.1, hleg.1.2, hleg.2]

/-- Witness for C1_amended at a concrete request. -/
theorem C1_amended_witness :
    formatDetector { userAgent := some "Mozilla/5.0",
                     authorization := some "Bearer x" } = currentFormat :=
  C1_amended _ "Mozilla/5.0" "Bearer x" rfl rfl rfl (by decide) rfl rfl

/-- Claim C8: a request carrying an explicit version header `"v2"` or `"2"`
and a User-Agent containing a legacy client substring is classified as the v2
descriptor (`wrapInData = true`, `includeSuccess = true`), not legacy: the
explicit header wins over user-agent inference. -/
theorem C8_explicit_version_wins (h : Headers) (ua : String)
    (hv : h.xApiVersion = some "v2" ∨ h.xApiVersion = some "2")
    (hua : h.userAgent = some ua) (hleg : uaIsLegacy ua = true) :
    formatDetector h = v2Format ∧ v2Format.wrapInData = true
      ∧ v2Format.includeSuccess = true := by
  refine ⟨?_, rfl, rfl⟩
  rcases hv with hv | hv <;>
    simp [formatDetector, hv, strTruthy, getFormatByVersion]

/-- Witness for C8_explicit_version_wins at a concrete request. -/
theorem C8_witness :
    formatDetector { xApiVersion := some "v2",
                     userAgent := some "48hauling/1.0" } = v2Format :=
  (C8_explicit_version_wins _ "48hauling/1.0" (Or.inl rfl) rfl rfl).1

/-- Claim C9: the detector middleware always attaches exactly one client format
descriptor to the request, and when no classification rule matches (no truthy
version header, no truthy app-version header, any present User-Agent carries no
legacy substring, no truthy Authorization header) that descriptor is the
current format with `wrapInData = false` and `includeSuccess = false`. -/
theorem C9_detector_total_default (req : FormatRequest) :
    (runDetector req).clientFormat = some (formatDetector req.headers) ∧
    (strTruthy req.headers.xApiVersion = false →
     strTruthy req.headers.appVersion = false →
     (∀ ua, req.headers.userAgent = some ua → uaIsLegacy ua = false) →
     strTruthy req.headers.authorization = false →
     formatDetector req.headers = currentFormat
       ∧ currentFormat.wrapInData = false
       ∧ currentFormat.includeSuccess = false) := by
  refine ⟨rfl, fun hv hav hua ha => ⟨?_, rfl, rfl⟩⟩
  cases huap : req.headers.userAgent with
  | none =>
    simp [formatDetector, hv, hav, huap, ha, strTruthy_none]
  | some ua =>
    have hleg := hua ua huap
    simp only [uaIsLegacy, Bool.or_eq_false_iff] at hleg
    by_cases hne : ua = ""
    · subst hne
      simp [formatDetector, hv, hav, huap, ha, strTruthy_none, strTruthy_some]
    · simp [formatDetector, hv, hav, huap, ha, strTruthy_none, strTruthy_some,
        hne, hleg.1.1, hleg.1.2, hleg.2]

/-- Witness for C9_detector_total_default at a concrete header-free request. -/
theorem C9_witness :
    (runDetector { headers := {} }).clientFormat
        = some (formatDetector ({} : Headers))
      ∧ formatDetector ({} : Headers) = currentFormat :=
  ⟨(C9_detector_total_default { headers := {} }).1,
   ((C9_detector_total_default { headers := {} }).2 rfl rfl
      (fun _ h => by cases h) rfl).1⟩

/-- Claim C6: a request whose bearer token is in the revocation store is
rejected with 401 and the token-revoked error, for every verification function
(so regardless of cryptographic validity or expiry), and no identity is
attached to the request. -/
theorem C6_revoked_rejected_before_verification (header : String)
    (blacklisted : String → Bool) (verify : String → Option TokenPayload)
    (hpre : startsWithStr header "Bearer " = true)
    (hbl : blacklisted (header.drop 7) = true) :
    authMiddleware (some header) blacklisted verify
        = .rejected 401 (errBody "Token has been revoked")
      ∧ ∀ u, authMiddleware (some header) blacklisted verify
          ≠ .authenticated u := by
  have h1 : authMiddleware (some header) blacklisted verify
      = .rejected 401 (errBody "Token has been revoked") := by
    simp [authMiddleware, hpre, hbl]
  exact ⟨h1, fun u hcontra => by rw [h1] at hcontra; cases hcontra⟩

/-- Witness for C6 at a concrete revoked token whose signature would verify. -/
theorem C6_witness :
    authMiddleware (some "Bearer abc") (fun t => t == "abc")
        (fun _ => some ⟨"1", "a@b.c", "ADMIN"⟩)
      = .rejected 401 (errBody "Token has been revoked") :=
  (C6_revoked_rejected_before_verification "Bearer abc" (fun t => t == "abc")
    (fun _ => some ⟨"1", "a@b.c", "ADMIN"⟩) rfl rfl).1

/-- Claim C7: revoking a token whose embedded expiry lies in the future stores
a revocation record keyed by the token with TTL equal to the remaining
lifetime; revoking an already-expired token (remaining lifetime zero or
negative) leaves the store unchanged. -/
theorem C7_revocation_ttl (exp now : Nat) (token : String) (store : RevStore) :
    ((exp : Int) - (now : Int) > 0 →
      blacklistToken (some exp) now token store
        = ("blacklist:" ++ token, (exp : Int) - (now : Int)) :: store) ∧
    ((exp : Int) - (now : Int) ≤ 0 →
      blacklistToken (some exp) now token store = store) := by
  constructor
  · intro hpos
    have hne : exp ≠ 0 := by omega
    simp [blacklistToken, hne, hpos]
  · intro hnonpos
    have hnot : ¬ ((exp : Int) - (now : Int) > 0) := by omega
    by_cases hz : exp = 0 <;> simp [blacklistToken, hz, hnot]

/-- Witness for C7 at concrete times: a token with 60 s of life left is stored
with TTL 60; an expired one is a no-op. -/
theorem C7_witness :
    blacklistToken (some 100) 40 "t" [] = [("blacklist:t", (60 : Int))] ∧
    blacklistToken (some 100) 250 "t" [] = [] :=
  ⟨(C7_revocation_ttl 100 40 "t" []).1 (by decide),
   (C7_revocation_ttl 100 250 "t" []).2 (by decide)⟩

/-- Claim C2: each limiter class uses a 15-minute window with max 100 (auth),
15000 (realtime) and 3000 (general); for every client IP and window state, the
N-th request in the window (N the class max) is forwarded to the handler, while
the (N+1)-th is answered 429 with `{ success: false, error: <class message> }`
without reaching the handler. -/
theorem C2_rate_limit_thresholds (ip : String) (counts : WindowCounts) :
    (authLimiter.max = 100 ∧ realtimeLimiter.max = 15000
      ∧ generalLimiter.max = 3000
      ∧ authLimiter.windowMs = 15 * 60 * 1000
      ∧ realtimeLimiter.windowMs = 15 * 60 * 1000
      ∧ generalLimiter.windowMs = 15 * 60 * 1000) ∧
    ∀ cfg, cfg = authLimiter ∨ cfg = realtimeLimiter ∨ cfg = generalLimiter →
      (getCount counts ip = cfg.max - 1 →
        (rateLimitStep cfg counts ip).1 = none) ∧
      (getCount counts ip = cfg.max →
        (rateLimitStep cfg counts ip).1
          = some (429, rateLimitBody cfg.errorMessage)) := by
  refine ⟨⟨rfl, rfl, rfl, rfl, rfl, rfl⟩, ?_⟩
  rintro cfg (rfl | rfl | rfl) <;>
    exact ⟨fun hc => by simp [rateLimitStep, hc, authLimiter, realtimeLimiter,
        generalLimiter],
      fun hc => by simp [rateLimitStep, hc, authLimiter, realtimeLimiter,
        generalLimiter]⟩

/-- Witness for C2 at a concrete IP and window: the 100th auth request passes,
the 101st is rejected with the auth-specific message. -/
theorem C2_witness :
    (rateLimitStep authLimiter [("1.2.3.4", 99)] "1.2.3.4").1 = none ∧
    (rateLimitStep authLimiter [("1.2.3.4", 100)] "1.2.3.4").1
      = some (429, rateLimitBody authLimiter.errorMessage) :=
  ⟨((C2_rate_limit_thresholds "1.2.3.4" [("1.2.3.4", 99)]).2 authLimiter
      (Or.inl rfl)).1 rfl,
   ((C2_rate_limit_thresholds "1.2.3.4" [("1.2.3.4", 100)]).2 authLimiter
      (Or.inl rfl)).2 rfl⟩

/-- Claim C3, counterexample: a body carrying both an `error` field and a
truthy `success` field (`{ error: "not found", success: true }`) is passed
through unchanged — its `success` stays `true`, so the output is not the
normalized `{ success: false, error, message }` the claim asserts. -/
theorem C3_counterexample :
    transformResponse
        (.obj [("error", .str "not found"), ("success", .bool true)])
        getLegacyFormat "/x"
      = .obj [("error", .str "not found"), ("success", .bool true)] ∧
    jget (transformResponse
        (.obj [("error", .str "not found"), ("success", .bool true)])
        getLegacyFormat "/x") "success" ≠ .bool false := by
  refine ⟨rfl, fun hcontra => ?_⟩
  have : JVal.bool true = JVal.bool false := hcontra
  simp at this

/-- Claim C3, amended: for every JSON body whose `error` field is truthy and
whose `success` field is not truthy, and for every client format descriptor,
the transformer outputs exactly `{ success: false, error: <body's error>,
message: <body's message> }`, with no envelope wrapping. -/
theorem C3_amended (data : JVal) (format : ClientFormat) (path : String)
    (he : truthy (jget data "error") = true)
    (hs : truthy (jget data "success") = false) :
    transformResponse data format path
      = .obj [("success", .bool false), ("error", jget data "error"),
              ("message", jget data "message")] := by
  simp [transformResponse, ensureFormat, he, hs]

/-- Witness for C3_amended at the spec's scenario body `{ error: "not found" }`. -/
theorem C3_amended_witness :
    transformResponse (.obj [("error", .str "not found")]) v2Format "/x"
      = .obj [("success", .bool false), ("error", .str "not found"),
              ("message", .undefined)] :=
  C3_amended (.obj [("error", .str "not found")]) v2Format "/x" rfl rfl

/-- Claim C10: whenever the error-normalization branch fires (truthy `error`,
non-truthy `success`), the output object has exactly the top-level keys
`success`, `error`, `message`; any other top-level field of the error body is
discarded. -/
theorem C10_error_branch_keys (data : JVal) (format : ClientFormat)
    (path : String)
    (he : truthy (jget data "error") = true)
    (hs : truthy (jget data "success") = false) :
    jkeys (transformResponse data format path) = ["success", "error", "message"]
      ∧ jget (transformResponse data format path) "code" = .undefined
      ∧ jget (transformResponse data format path) "details" = .undefined := by
  have hout : transformResponse data format path
      = .obj [("success", .bool false), ("error", jget data "error"),
              ("message", jget data "message")] := by
    simp [transformResponse, ensureFormat, he, hs]
  rw [hout]
  refine ⟨rfl, ?_, ?_⟩ <;> simp [jget, lookupField]

/-- Witness for C10 at a body whose extra `code` and `details` fields are
dropped. -/
theorem C10_witness :
    jkeys (transformResponse
        (.obj [("error", .str "boom"), ("code", .num 500),
               ("details", .str "d")]) currentFormat "/x")
      = ["success", "error", "message"] :=
  (C10_error_branch_keys
    (.obj [("error", .str "boom"), ("code", .num 500), ("details", .str "d")])
    currentFormat "/x" rfl rfl).1

/-- Claim C4, counterexample: under the v2 descriptor the body
`{ data: null }` contains a `data` field yet is wrapped (the source tests
`!data.data`, which is true for the falsy value `null`), so it is not passed
through unchanged as the claim asserts. -/
theorem C4_counterexample :
    transformResponse (.obj [("data", .null)]) v2Format "/x"
      = .obj [("success", .bool true), ("data", .obj [("data", .null)])] ∧
    transformResponse (.obj [("data", .null)]) v2Format "/x"
      ≠ .obj [("data", .null)] := by
  refine ⟨rfl, fun hcontra => absurd (congrArg jkeys hcontra) (by decide)⟩

/-- Claim C4, amended: under the v2 descriptor, for every JSON body without an
`error` field: if the body has no truthy `data` field the transformer outputs
`{ success: true, data: <body> }`, and if the body has a truthy `data` field it
passes through unchanged (a falsy `data` value — null, false, 0, "" — is
wrapped, not passed through). -/
theorem C4_amended (data : JVal) (path : String)
    (he : jget data "error" = .undefined) :
    (truthy (jget data "data") = false →
      transformResponse data v2Format path
        = .obj [("success", .bool true), ("data", data)]) ∧
    (truthy (jget data "data") = true →
      transformResponse data v2Format path = data) := by
  have he' : truthy (jget data "error") = false := by rw [he]; rfl
  constructor <;> intro hd <;>
    simp [transformResponse, transformToV2, v2Format, he', hd]

/-- Witness for C4_amended: a body without `data` is wrapped, a body with a
truthy `data` passes through. -/
theorem C4_amended_witness :
    transformResponse (.obj [("a", .num 1)]) v2Format ""
      = .obj [("success", .bool true), ("data", .obj [("a", .num 1)])] ∧
    transformResponse (.obj [("data", .num 1)]) v2Format ""
      = .obj [("data", .num 1)] :=
  ⟨(C4_amended (.obj [("a", .num 1)]) "" rfl).1 rfl,
   (C4_amended (.obj [("data", .num 1)]) "" rfl).2 rfl⟩

/-- Claim C5, counterexample: under the v2 descriptor the falsy JSON body
`false` is wrapped to `{ success: true, data: false }`, whose `data` field is
again falsy, so a second application wraps again: transforming twice differs
from transforming once. -/
theorem C5_counterexample :
    transformResponse (transformResponse (.bool false) v2Format "/x")
        v2Format "/x"
      ≠ transformResponse (.bool false) v2Format "/x" := by
  intro hcontra
  exact absurd (congrArg (fun v => jkeys (jget v "data")) hcontra) (by decide)

/-- Claim C5, amended: for every JSON object body, every descriptor and every
request path, applying the response transformation twice yields the same
result as applying it once; in particular a second application to the result
of transforming an already-legacy-shaped object body returns a structurally
identical body.  (For falsy primitive bodies — false, 0, "" — under the v2
descriptor, each application wraps again, so idempotence is restricted to
object bodies.) -/
theorem C5_amended (fields : List (String × JVal)) (format : ClientFormat)
    (path : String) :
    transformResponse (transformResponse (JVal.obj fields) format path)
        format path
      = transformResponse (JVal.obj fields) format path := by
  cases he : truthy (jget (JVal.obj fields) "error") with
  | true =>
    cases hs : truthy (jget (JVal.obj fields) "success") with
    | true =>
      have h1 : transformResponse (JVal.obj fields) format path
          = JVal.obj fields := by
        simp [transformResponse, ensureFormat, he, hs]
      simp only [h1]
    | false =>
      have h1 : transformResponse (JVal.obj fields) format path
          = JVal.obj [("success", .bool false),
              ("error", jget (JVal.obj fields) "error"),
              ("message", jget (JVal.obj fields) "message")] := by
        simp [transformResponse, ensureFormat, he, hs]
      rw [h1]
      exact errShapeFixed _ _ format path he
  | false =>
    cases hty : format.type with
    | current =>
      have h1 : transformResponse (JVal.obj fields) format path
          = JVal.obj fields := by
        simp [transformResponse, he, hty]
      simp only [h1]
    | v2 =>
      cases hw : format.wrapInData with
      | false =>
        have h1 : transformResponse (JVal.obj fields) format path
            = JVal.obj fields := by
          simp [transformResponse, transformToV2, he, hty, hw]
        simp only [h1]
      | true =>
        cases hd : truthy (jget (JVal.obj fields) "data") with
        | true =>
          have h1 : transformResponse (JVal.obj fields) format path
              = JVal.obj fields := by
            simp [transformResponse, transformToV2, he, hty, hd]
          simp only [h1]
        | false =>
          have h1 : transformResponse (JVal.obj fields) format path
              = JVal.obj [("success", .bool true),
                  ("data", JVal.obj fields)] := by
            simp [transformResponse, transformToV2, he, hty, hw, hd]
          rw [h1]
          exact v2WrapFixed _ format path rfl hty
    | legacy => exact legacyIdem fields format path he (Or.inl hty)
    | v1 => exact legacyIdem fields format path he (Or.inr hty)

end DevApi
